import Mathlib

/-!
Shallow embedding of the part-selection, highlight and pivot-reset logic of the
rpe-app repository (Engine.js and App.jsx), together with theorems checking
the repository specification against it.
-/

namespace RpeApp

/-- The six part entries of the engine render: each pair is a part name and the
mesh-index array passed to its Select group (Engine.js render, the six Parts lines). -/
def engineParts : List (String × List Nat) :=
  [("gear", [0, 1, 2, 3, 4, 5, 6, 7, 8, 9, 10, 13]),
   ("shaft", [29, 30, 31, 32, 33]),
   ("cylinder", [11, 12, 14, 19, 34, 39, 47, 52]),
   ("piston1", [15, 16, 17, 18, 20, 21, 22, 23, 24, 25, 26, 27, 28]),
   ("piston2", [35, 36, 37, 38, 40, 41, 42, 43, 44, 45, 46]),
   ("piston3", [48, 49, 50, 51, 53, 54, 55, 56, 57, 58, 59])]

/-- The six part names, in render order. -/
def partNames : List String := engineParts.map Prod.fst

/-- Look up a part name in the table, returning its mesh-index array. -/
def lookupPart (name : String) : Option (List Nat) :=
  (engineParts.find? (fun e => e.1 == name)).map Prod.snd

/-- The part owning mesh index `i`: the first table entry whose array contains `i`. -/
def partOf (i : Nat) : Option String :=
  (engineParts.find? (fun e => e.2.contains i)).map Prod.fst

/-- All mesh indices appearing in the part table. -/
def meshIndices : List Nat := (engineParts.map Prod.snd).flatten

/-- The leva control state of the Engine component: one checkbox per part,
plus the `all` and `autoRotate` checkboxes (Engine.js, useControls block). -/
structure Config where
  gear : Bool
  shaft : Bool
  cylinder : Bool
  piston1 : Bool
  piston2 : Bool
  piston3 : Bool
  all : Bool
  autoRotate : Bool
deriving DecidableEq, Repr

/-- The checkbox flag wired to the Parts element of a given name in the render:
`config.gear` for "gear", and so on.  Names outside the table have no checkbox. -/
def Config.checkedOf (c : Config) (name : String) : Bool :=
  match name with
  | "gear" => c.gear
  | "shaft" => c.shaft
  | "cylinder" => c.cylinder
  | "piston1" => c.piston1
  | "piston2" => c.piston2
  | "piston3" => c.piston3
  | _ => false

/-- `pton(part, stat)` (Engine.js): check or uncheck a part in the GUI.  The
switch dispatches on the part name; any value that matches none of the six
cases (including null, embedded as `none`) falls to the default branch,
which sets all six checkboxes to `stat`. -/
def pton (part : Option String) (stat : Bool) (c : Config) : Config :=
  if part == some "gear" then { c with gear := stat }
  else if part == some "shaft" then { c with shaft := stat }
  else if part == some "cylinder" then { c with cylinder := stat }
  else if part == some "piston1" then { c with piston1 := stat }
  else if part == some "piston2" then { c with piston2 := stat }
  else if part == some "piston3" then { c with piston3 := stat }
  else { c with gear := stat, shaft := stat, cylinder := stat,
                piston1 := stat, piston2 := stat, piston3 := stat }

/-- The viewer-local state of the Engine component: the `hovered` useState value
(a part name or null) and the leva config. -/
structure EngineState where
  hovered : Option String
  config : Config
deriving DecidableEq, Repr

/-- The onDoubleClick handler of the root group: `part` is the clicked mesh's
parent name; the handler runs `setHover(part)` and `pton(part)` (stat defaults
to true). -/
def onDoubleClick (part : String) (s : EngineState) : EngineState :=
  { hovered := some part, config := pton (some part) true s.config }

/-- The onPointerOut handler of the root group: `setHover(null); pton(null, false)`. -/
def onPointerOut (s : EngineState) : EngineState :=
  { hovered := none, config := pton none false s.config }

/-- The enabled flag of a Parts element's Select group (Engine.js, Parts):
`enabled = hovered === name || config`. -/
def partsEnabled (hovered : Option String) (name : String) (checked : Bool) : Bool :=
  (hovered == some name) || checked

/-- Whether mesh index `i` is highlighted in state `s`: the render nests every
Parts element inside an outer `Select enabled={config.all}`, so a mesh is
selected for the outline when the outer group is enabled or when its own
part's Select group is enabled. -/
def highlight (s : EngineState) (i : Nat) : Bool :=
  s.config.all ||
    match partOf i with
    | some p => partsEnabled s.hovered p (s.config.checkedOf p)
    | none => false

/-- The config with every checkbox off (the initial leva values in Engine.js). -/
def initialConfig : Config :=
  { gear := false, shaft := false, cylinder := false, piston1 := false,
    piston2 := false, piston3 := false, all := false, autoRotate := false }

/-- A 3D vector with exact rational coordinates (embedding of THREE.Vector3
as used by the reset action). -/
structure Vec3 where
  x : ℚ
  y : ℚ
  z : ℚ
deriving DecidableEq, Repr

/-- Componentwise vector addition. -/
def Vec3.add (a b : Vec3) : Vec3 := ⟨a.x + b.x, a.y + b.y, a.z + b.z⟩

/-- `Vector3.negate()`: negate each component. -/
def Vec3.negate (v : Vec3) : Vec3 := ⟨-v.x, -v.y, -v.z⟩

/-- An axis-aligned bounding box (embedding of THREE.Box3). -/
structure Box3 where
  lo : Vec3
  hi : Vec3
deriving DecidableEq, Repr

/-- `Box3.getCenter`: the midpoint of the two corners, `(lo + hi) * 0.5`. -/
def Box3.getCenter (b : Box3) : Vec3 :=
  ⟨(b.lo.x + b.hi.x) / 2, (b.lo.y + b.hi.y) / 2, (b.lo.z + b.hi.z) / 2⟩

/-- The scene state the reset button touches: the engine group's transform, the
one-shot guard ref `reset.current`, and the camera/controls state from useThree. -/
structure SceneState where
  /-- AABB of the engine group's children in the group's parent frame with the
  group at the origin (fixed: the loaded geometry under the constant rotation). -/
  localBox : Box3
  /-- `group.current.position`. -/
  groupPos : Vec3
  /-- The guard ref `reset.current`. -/
  resetDone : Bool
  /-- `state.camera.up`. -/
  cameraUp : Vec3
  /-- Whether `state.controls.reset()` has restored the controls to their saved state. -/
  controlsAtSaved : Bool
deriving DecidableEq, Repr

/-- `new Box3().setFromObject(group.current)`: the world-space AABB of the full
assembly, its local box translated by the group's current position. -/
def worldBox (s : SceneState) : Box3 :=
  ⟨s.localBox.lo.add s.groupPos, s.localBox.hi.add s.groupPos⟩

/-- The leva reset button callback (Engine.js): when the guard ref is unset,
compute the assembly's bounding box, move the group's position to the negated
box center and set the guard; in every invocation, reset the controls and set
the camera up-vector to (0, 1, 0). -/
def resetButton (s : SceneState) : SceneState :=
  let s1 :=
    if !s.resetDone then
      { s with groupPos := (worldBox s).getCenter.negate, resetDone := true }
    else s
  { s1 with controlsAtSaved := true, cameraUp := ⟨0, 1, 0⟩ }

end RpeApp

namespace RpeApp

/-- The engine state at startup: nothing hovered, every checkbox off. -/
def initialState : EngineState := ⟨none, initialConfig⟩

/-- The part owning a mesh index is one of the six table names. -/
theorem partOf_mem_partNames (i : Nat) (p : String) (h : partOf i = some p) :
    p ∈ partNames := by
  rcases Option.map_eq_some'.mp h with ⟨e, he, hfe⟩
  subst hfe
  exact List.mem_map_of_mem Prod.fst (List.mem_of_find?_eq_some he)

end RpeApp

namespace RpeApp

/-- C1: the part table maps each of the six part names to its fixed documented
index set, the six sets are pairwise disjoint, and their union is exactly the
contiguous range of mesh indices 0 through 59. -/
theorem partTable_partition :
    lookupPart "gear" = some [0, 1, 2, 3, 4, 5, 6, 7, 8, 9, 10, 13] ∧
    lookupPart "shaft" = some [29, 30, 31, 32, 33] ∧
    lookupPart "cylinder" = some [11, 12, 14, 19, 34, 39, 47, 52] ∧
    lookupPart "piston1" = some [15, 16, 17, 18, 20, 21, 22, 23, 24, 25, 26, 27, 28] ∧
    lookupPart "piston2" = some [35, 36, 37, 38, 40, 41, 42, 43, 44, 45, 46] ∧
    lookupPart "piston3" = some [48, 49, 50, 51, 53, 54, 55, 56, 57, 58, 59] ∧
    (engineParts.all fun p => engineParts.all fun q =>
      (p.1 == q.1) || p.2.all (fun i => !q.2.contains i)) = true ∧
    meshIndices.Nodup ∧
    meshIndices.toFinset = Finset.range 60 := by decide

/-- C2: a part's Select group is enabled exactly when the part is hovered or
its checkbox is checked. -/
theorem partsEnabled_iff (s : EngineState) (name : String) :
    partsEnabled s.hovered name (s.config.checkedOf name) = true ↔
      s.hovered = some name ∨ s.config.checkedOf name = true := by
  simp [partsEnabled]

end RpeApp

namespace RpeApp

/-- The state with the shaft checkbox on and the shaft hovered. -/
def shaftCheckedHovered : EngineState :=
  ⟨some "shaft", { initialConfig with shaft := true }⟩

/-- C3 counterexample: from the state where shaft is checked and hovered,
firing onPointerOut does NOT leave the shaft checkbox true — the handler runs
pton(null, false), whose default branch unchecks every part. -/
theorem pointerOut_keeps_check_cex :
    shaftCheckedHovered.config.checkedOf "shaft" = true ∧
    shaftCheckedHovered.hovered = some "shaft" ∧
    (onPointerOut shaftCheckedHovered).config.checkedOf "shaft" ≠ true := by decide

/-- C3 amended: from a state where a part is checked and hovered, firing
onPointerOut clears the hover AND sets that part's checkbox (indeed every
checkbox) to false. -/
theorem pointerOut_clears_check (s : EngineState) (p : String)
    (hc : s.config.checkedOf p = true) (hh : s.hovered = some p) :
    (onPointerOut s).hovered = none ∧
    (onPointerOut s).config.checkedOf p = false := by
  refine ⟨rfl, ?_⟩
  show Config.checkedOf (pton none false s.config) p = false
  unfold pton Config.checkedOf
  split <;> rfl

theorem pointerOut_clears_check_witness :
    (shaftCheckedHovered.config.checkedOf "shaft" = true ∧
     shaftCheckedHovered.hovered = some "shaft") ∧
    ((onPointerOut shaftCheckedHovered).hovered = none ∧
     (onPointerOut shaftCheckedHovered).config.checkedOf "shaft" = false) :=
  ⟨⟨by decide, by decide⟩,
   pointerOut_clears_check shaftCheckedHovered "shaft" (by decide) (by decide)⟩

/-- C4: pton on any name outside the six table names (null included) takes the
default branch and sets all six checkboxes to the given status. -/
theorem pton_default_selects_all (part : Option String) (stat : Bool) (c : Config)
    (h : ∀ n ∈ partNames, part ≠ some n) :
    pton part stat c =
      { c with gear := stat, shaft := stat, cylinder := stat,
               piston1 := stat, piston2 := stat, piston3 := stat } := by
  have h1 : part ≠ some "gear" := h "gear" (by decide)
  have h2 : part ≠ some "shaft" := h "shaft" (by decide)
  have h3 : part ≠ some "cylinder" := h "cylinder" (by decide)
  have h4 : part ≠ some "piston1" := h "piston1" (by decide)
  have h5 : part ≠ some "piston2" := h "piston2" (by decide)
  have h6 : part ≠ some "piston3" := h "piston3" (by decide)
  simp [pton, h1, h2, h3, h4, h5, h6]

theorem pton_default_selects_all_witness :
    (∀ n ∈ partNames, (none : Option String) ≠ some n) ∧
    pton none true initialConfig =
      { initialConfig with gear := true, shaft := true, cylinder := true,
                           piston1 := true, piston2 := true, piston3 := true } :=
  ⟨by decide, pton_default_selects_all none true initialConfig (by decide)⟩

/-- C5: double-clicking a mesh of part `p` (the mesh's Select parent carries the
part name) sets the hover state to `p` and checks the checkbox of `p`. -/
theorem doubleClick_checks_part (s : EngineState) (i : Nat) (p : String)
    (h : partOf i = some p) :
    (onDoubleClick p s).hovered = some p ∧
    (onDoubleClick p s).config.checkedOf p = true := by
  refine ⟨rfl, ?_⟩
  have hp := partOf_mem_partNames i p h
  have hcases : p = "gear" ∨ p = "shaft" ∨ p = "cylinder" ∨
      p = "piston1" ∨ p = "piston2" ∨ p = "piston3" := by
    simpa [partNames, engineParts] using hp
  rcases hcases with h1 | h1 | h1 | h1 | h1 | h1 <;> subst h1 <;> rfl

theorem doubleClick_checks_part_witness :
    partOf 30 = some "shaft" ∧
    ((onDoubleClick "shaft" initialState).hovered = some "shaft" ∧
     (onDoubleClick "shaft" initialState).config.checkedOf "shaft" = true) :=
  ⟨by decide, doubleClick_checks_part initialState 30 "shaft" (by decide)⟩

end RpeApp

namespace RpeApp

/-- C6: pressing the reset button twice leaves the scene exactly as after the
first press — in particular the root group transform — because the guard ref
makes the bounding-box recentering run at most once. -/
theorem resetButton_idempotent (s : SceneState) :
    resetButton (resetButton s) = resetButton s := by
  cases h : s.resetDone <;> simp [resetButton, h]

/-- A sample scene in its pre-reset state. -/
def sampleScene : SceneState :=
  { localBox := ⟨⟨0, 0, 0⟩, ⟨2, 4, 6⟩⟩, groupPos := ⟨1, 1, 1⟩,
    resetDone := false, cameraUp := ⟨0, 0, 1⟩, controlsAtSaved := false }

/-- C7: on a first press (guard unset), the reset button moves the group's
position to the negated center of the assembly's world bounding box, resets
the controls and sets the camera up-vector to (0, 1, 0). -/
theorem resetButton_first (s : SceneState) (h : s.resetDone = false) :
    (resetButton s).groupPos = (worldBox s).getCenter.negate ∧
    (resetButton s).cameraUp = ⟨0, 1, 0⟩ ∧
    (resetButton s).controlsAtSaved = true := by
  simp [resetButton, h]

theorem resetButton_first_witness :
    sampleScene.resetDone = false ∧
    ((resetButton sampleScene).groupPos = (worldBox sampleScene).getCenter.negate ∧
     (resetButton sampleScene).cameraUp = ⟨0, 1, 0⟩ ∧
     (resetButton sampleScene).controlsAtSaved = true) :=
  ⟨rfl, resetButton_first sampleScene rfl⟩

/-- The state with only the shaft hovered: no checkbox on, select-all off. -/
def shaftHoverOnly : EngineState := ⟨some "shaft", initialConfig⟩

/-- C8: with hoveredPart = "shaft", all checkboxes off and select-all off, the
highlighted mesh indices of the table are exactly 29, 30, 31, 32, 33. -/
theorem shaft_hover_highlights_exactly :
    meshIndices.filter (fun i => highlight shaftHoverOnly i) = [29, 30, 31, 32, 33] := by
  decide

/-- C9: whenever the select-all checkbox is on, every mesh index of the table
is highlighted, whatever the individual checkboxes and hover state are. -/
theorem all_flag_overrides (s : EngineState) (i : Nat)
    (ha : s.config.all = true) (_hi : i ∈ meshIndices) :
    highlight s i = true := by
  simp [highlight, ha]

/-- The state with only the select-all checkbox on. -/
def allOnState : EngineState := ⟨none, { initialConfig with all := true }⟩

theorem all_flag_overrides_witness :
    (allOnState.config.all = true ∧ 0 ∈ meshIndices) ∧
    highlight allOnState 0 = true :=
  ⟨⟨rfl, by decide⟩, all_flag_overrides allOnState 0 rfl (by decide)⟩

/-- C10: after onPointerOut, whatever the prior state, nothing is hovered and
all six part checkboxes are false: pton(null, false) takes the default branch
and unchecks every part. -/
theorem pointerOut_clears_everything (s : EngineState) :
    (onPointerOut s).hovered = none ∧
    (onPointerOut s).config.gear = false ∧
    (onPointerOut s).config.shaft = false ∧
    (onPointerOut s).config.cylinder = false ∧
    (onPointerOut s).config.piston1 = false ∧
    (onPointerOut s).config.piston2 = false ∧
    (onPointerOut s).config.piston3 = false :=
  ⟨rfl, rfl, rfl, rfl, rfl, rfl, rfl⟩

end RpeApp
